import Mathlib

/-!
Verification development for the `sws` HTTP/1.0 server
(`src/http.c`, `src/util.c`, `src/http.h`).

The C sources are shallowly embedded: pure string/arithmetic manipulation
is translated to Lean functions on `String` / `List Char` / `Int` / `Nat`;
operating-system services (`realpath`, `stat`, `read`, `scandir`,
`fork`/`exec`) are passed in as explicit oracle parameters; the libc
time functions (`gmtime_r`, `mktime`, `strftime`, `strptime`) are modelled
for a process running with the `TZ=UTC` timezone, in which `mktime`
coincides with `timegm`.
-/

/-! ## Character helpers (C `ctype.h` semantics, "C" locale) -/

/-- C `tolower` in the "C" locale: maps `A`–`Z` to `a`–`z`. -/
def csTolower (c : Char) : Char :=
  if 'A' ≤ c ∧ c ≤ 'Z' then Char.ofNat (c.toNat + 32) else c

/-- C `isdigit`. -/
def csIsDigit (c : Char) : Bool := '0' ≤ c && c ≤ '9'

/-- C `isspace` in the "C" locale. -/
def csIsSpace (c : Char) : Bool :=
  c == ' ' || c == '\t' || c == '\n' || c == '\x0b' || c == '\x0c' || c == '\r'

/-- Decimal digit character for `d < 10`. -/
def digCh (d : Nat) : Char := Char.ofNat (48 + d)

/-- Numeric value of a digit character. -/
def digVal (c : Char) : Nat := c.toNat - 48

/-! ## Calendar model

Model of the proleptic Gregorian calendar used by `gmtime_r`/`mktime`
(`timegm` form, i.e. a `TZ=UTC` process).  Days are counted from the Unix
epoch 1970-01-01; years are split off by repeatedly subtracting year
lengths, months by subtracting month lengths, exactly as a straightforward
`gmtime` implementation does. -/

/-- Gregorian leap-year rule. -/
def isLeap (y : Nat) : Bool := (y % 4 == 0 && y % 100 != 0) || y % 400 == 0

/-- Number of days in Gregorian year `y`. -/
def daysInYear (y : Nat) : Nat := if isLeap y then 366 else 365

/-- Length of month `m` (0-based) in a year with leap flag `leap`. -/
def monthLen (leap : Bool) (m : Nat) : Nat :=
  match m with
  | 0 => 31
  | 1 => if leap then 29 else 28
  | 2 => 31
  | 3 => 30
  | 4 => 31
  | 5 => 30
  | 6 => 31
  | 7 => 31
  | 8 => 30
  | 9 => 31
  | 10 => 30
  | _ => 31

/-- Splits a day count into (index, remainder) by repeatedly subtracting
`len i`, `len (i+1)`, … while the remainder is large enough.  Used both
for the year loop and the month loop of the `gmtime` model. -/
def splitLengths (len : Nat → Nat) : Nat → Nat → Nat → Nat × Nat
  | 0, i, rem => (i, rem)
  | fuel + 1, i, rem =>
    if rem < len i then (i, rem) else splitLengths len fuel (i + 1) (rem - len i)

/-- Sum `len i + len (i+1) + ⋯ + len (i+k-1)`. -/
def sumLengths (len : Nat → Nat) (i : Nat) : Nat → Nat
  | 0 => 0
  | k + 1 => len i + sumLengths len (i + 1) k

theorem sumLengths_add (len : Nat → Nat) :
    ∀ a i b, sumLengths len i (a + b) = sumLengths len i a + sumLengths len (i + a) b := by
  intro a
  induction a with
  | zero => intro i b; simp [sumLengths]
  | succ n ih =>
    intro i b
    have h1 : n + 1 + b = (n + b) + 1 := by omega
    rw [h1]
    simp only [sumLengths, ih (i + 1) b]
    have h2 : i + 1 + n = i + (n + 1) := by omega
    rw [h2]
    omega

theorem isLeap_add_400 (y : Nat) : isLeap (y + 400) = isLeap y := by
  simp only [isLeap]
  have h4 : (y + 400) % 4 = y % 4 := by omega
  have h100 : (y + 400) % 100 = y % 100 := by omega
  have h400 : (y + 400) % 400 = y % 400 := by omega
  rw [h4, h100, h400]

theorem daysInYear_add_400 (y : Nat) : daysInYear (y + 400) = daysInYear y := by
  simp [daysInYear, isLeap_add_400]

theorem sumLengths_year_shift :
    ∀ k i, sumLengths daysInYear (i + 400) k = sumLengths daysInYear i k := by
  intro k
  induction k with
  | zero => intro i; simp [sumLengths]
  | succ n ih =>
    intro i
    simp only [sumLengths, daysInYear_add_400]
    have h : i + 400 + 1 = (i + 1) + 400 := by omega
    rw [h, ih (i + 1)]

set_option maxRecDepth 4000 in
theorem sumLengths_1970_400 : sumLengths daysInYear 1970 400 = 146097 := by decide

set_option maxRecDepth 1000 in
theorem sumLengths_1970_30 : sumLengths daysInYear 1970 30 = 10957 := by decide

theorem sumLengths_year_blocks :
    ∀ n, sumLengths daysInYear 1970 (400 * n) = 146097 * n := by
  intro n
  induction n with
  | zero => simp [sumLengths]
  | succ m ih =>
    have h : 400 * (m + 1) = 400 + 400 * m := by omega
    rw [h, sumLengths_add, sumLengths_1970_400]
    have h2 : sumLengths daysInYear (1970 + 400) (400 * m)
        = sumLengths daysInYear 1970 (400 * m) := sumLengths_year_shift _ _
    rw [h2, ih]
    omega

theorem sumLengths_year_shift_mult :
    ∀ n k i, sumLengths daysInYear (i + 400 * n) k = sumLengths daysInYear i k := by
  intro n
  induction n with
  | zero => intro k i; simp
  | succ m ih =>
    intro k i
    have h : i + 400 * (m + 1) = (i + 400 * m) + 400 := by omega
    rw [h, sumLengths_year_shift, ih]

/-- Days from 1970-01-01 to 10000-01-01. -/
theorem sumLengths_1970_8030 : sumLengths daysInYear 1970 8030 = 2932897 := by
  have h : (8030 : Nat) = 400 * 20 + 30 := by omega
  rw [h, sumLengths_add, sumLengths_year_blocks]
  have h2 : (1970 + 400 * 20 : Nat) = 1970 + 400 * 20 := rfl
  rw [sumLengths_year_shift_mult 20 30 1970, sumLengths_1970_30]

theorem splitLengths_correct (len : Nat → Nat) :
    ∀ fuel i rem, rem < sumLengths len i fuel →
      (splitLengths len fuel i rem).2 < len (splitLengths len fuel i rem).1 ∧
      i ≤ (splitLengths len fuel i rem).1 ∧
      (splitLengths len fuel i rem).1 < i + fuel ∧
      sumLengths len i ((splitLengths len fuel i rem).1 - i)
        + (splitLengths len fuel i rem).2 = rem := by
  intro fuel
  induction fuel with
  | zero => intro i rem h; simp [sumLengths] at h
  | succ n ih =>
    intro i rem h
    simp only [splitLengths]
    by_cases hlt : rem < len i
    · rw [if_pos hlt]
      refine ⟨hlt, Nat.le_refl _, by omega, ?_⟩
      simp [sumLengths]
    · rw [if_neg hlt]
      have hrem : rem - len i < sumLengths len (i + 1) n := by
        simp only [sumLengths] at h; omega
      obtain ⟨h1, h2, h3, h4⟩ := ih (i + 1) (rem - len i) hrem
      refine ⟨h1, by omega, by omega, ?_⟩
      have hd : (splitLengths len n (i + 1) (rem - len i)).1 - i
          = ((splitLengths len n (i + 1) (rem - len i)).1 - (i + 1)) + 1 := by omega
      rw [hd]
      simp only [sumLengths]
      omega

theorem sumLengths_month (l : Bool) :
    sumLengths (monthLen l) 0 12 = if l then 366 else 365 := by
  cases l <;> decide

/-- `gmtime` model, date part: day count from the epoch to
(year, month (0-based), day-of-month (0-based)). -/
def daysToCivil (days : Nat) : Nat × Nat × Nat :=
  let ys := splitLengths daysInYear 8030 1970 days
  let ms := splitLengths (monthLen (isLeap ys.1)) 12 0 ys.2
  (ys.1, ms.1, ms.2)

/-- `timegm` model, date part: day count from the epoch for
(year, month (0-based), day-of-month (0-based)). -/
def civilToDays (y m d : Nat) : Nat :=
  sumLengths daysInYear 1970 (y - 1970) + sumLengths (monthLen (isLeap y)) 0 m + d

theorem civilToDays_daysToCivil (days : Nat) (h : days < 2932897) :
    civilToDays (daysToCivil days).1 (daysToCivil days).2.1 (daysToCivil days).2.2 = days ∧
    1970 ≤ (daysToCivil days).1 ∧ (daysToCivil days).1 ≤ 9999 ∧
    (daysToCivil days).2.1 < 12 ∧
    (daysToCivil days).2.2 < monthLen (isLeap (daysToCivil days).1) (daysToCivil days).2.1 := by
  have hy := splitLengths_correct daysInYear 8030 1970 days
    (by rw [sumLengths_1970_8030]; exact h)
  obtain ⟨hy1, hy2, hy3, hy4⟩ := hy
  set ys := splitLengths daysInYear 8030 1970 days with hys
  have hm := splitLengths_correct (monthLen (isLeap ys.1)) 12 0 ys.2
    (by rw [sumLengths_month]
        have := hy1
        simp only [daysInYear] at this
        by_cases hl : isLeap ys.1 <;> simp [hl] at this ⊢ <;> omega)
  obtain ⟨hm1, hm2, hm3, hm4⟩ := hm
  set ms := splitLengths (monthLen (isLeap ys.1)) 12 0 ys.2 with hms
  simp only [daysToCivil, civilToDays]
  rw [← hys, ← hms]
  refine ⟨?_, by omega, by omega, by omega, ?_⟩
  · have hsub : ms.1 - 0 = ms.1 := by omega
    rw [hsub] at hm4
    omega
  · exact hm1

/-! ## `struct tm`, `gmtime_r`, `mktime` -/

/-- Model of C `struct tm` (the fields used by `http.c`/`util.c`).
`tm_year` counts years since 1900, `tm_mon` is 0-based, as in C. -/
structure Tm where
  tm_sec : Nat
  tm_min : Nat
  tm_hour : Nat
  tm_mday : Nat
  tm_mon : Nat
  tm_year : Int
  tm_wday : Nat
deriving Repr, DecidableEq

/-- Model of `gmtime_r`: breaks seconds since the epoch into calendar
fields.  Faithful for `0 ≤ t` (the server only converts non-negative
timestamps); day-of-week uses that 1970-01-01 was a Thursday.
`/` and `%` on `Int` are Euclidean division, matching C `gmtime`'s
floor-style day split for the non-negative range modelled here. -/
def secsToTm (t : Int) : Tm :=
  let days := (t / 86400).toNat
  let rem := (t % 86400).toNat
  let c := daysToCivil days
  { tm_sec := rem % 60
    tm_min := rem / 60 % 60
    tm_hour := rem / 3600
    tm_mday := c.2.2 + 1
    tm_mon := c.2.1
    tm_year := (c.1 : Int) - 1900
    tm_wday := (days + 4) % 7 }

/-- Model of `mktime` in a `TZ=UTC` process (i.e. `timegm`) on the
in-range field values produced by `strptime`/`gmtime_r`. -/
def timegmModel (tm : Tm) : Int :=
  (civilToDays (tm.tm_year + 1900).toNat tm.tm_mon (tm.tm_mday - 1) : Int) * 86400
    + tm.tm_hour * 3600 + tm.tm_min * 60 + tm.tm_sec

/-- Model of `util.c` `local_to_gmtime`: `mktime(gmtime_r(t))`, which is
the identity in a `TZ=UTC` process. -/
def local_to_gmtime (t : Int) : Int := timegmModel (secsToTm t)

theorem timegmModel_secsToTm (t : Int) (h0 : 0 ≤ t) (h1 : t < 253402300800) :
    timegmModel (secsToTm t) = t := by
  have hdays : ((t / 86400).toNat : Int) = t / 86400 := by omega
  have hdays2 : (t / 86400).toNat < 2932897 := by omega
  have hrem : ((t % 86400).toNat : Int) = t % 86400 := by omega
  have hrem2 : (t % 86400).toNat < 86400 := by omega
  obtain ⟨hc, hy1, hy2, hm1, hm2⟩ := civilToDays_daysToCivil (t / 86400).toNat hdays2
  simp only [timegmModel, secsToTm]
  have hyear : ((((daysToCivil (t / 86400).toNat).1 : Int) - 1900) + 1900).toNat
      = (daysToCivil (t / 86400).toNat).1 := by omega
  rw [hyear]
  have hmday : (daysToCivil (t / 86400).toNat).2.2 + 1 - 1
      = (daysToCivil (t / 86400).toNat).2.2 := by omega
  rw [hmday, hc]
  omega

theorem local_to_gmtime_id (t : Int) (h0 : 0 ≤ t) (h1 : t < 253402300800) :
    local_to_gmtime t = t := timegmModel_secsToTm t h0 h1

/-! ## `strftime` / `strptime` model for the HTTP date formats

`util.c` uses `strftime` with format `"%a, %d %b %Y %H:%M:%S GMT"`
(RFC 1123) and `strptime` with the three formats of RFC 1945
(rfc1123-date, rfc850-date, asctime-date).  The models below implement
exactly those format strings: abbreviated names are matched from the C
locale tables, numeric fields are parsed greedily up to the glibc field
widths (2 digits for `%d`/`%H`/`%M`/`%S`/`%y`, 4 for `%Y`). -/

def dayNames : List String := ["Sun", "Mon", "Tue", "Wed", "Thu", "Fri", "Sat"]

def dayNamesFull : List String :=
  ["Sunday", "Monday", "Tuesday", "Wednesday", "Thursday", "Friday", "Saturday"]

def monNames : List String :=
  ["Jan", "Feb", "Mar", "Apr", "May", "Jun", "Jul", "Aug", "Sep", "Oct", "Nov", "Dec"]

/-- Two zero-padded decimal digits (`strftime` `%d`/`%H`/`%M`/`%S`). -/
def pad2 (n : Nat) : List Char := [digCh (n / 10 % 10), digCh (n % 10)]

/-- Four decimal digits (`strftime` `%Y` for years 1000–9999). -/
def pad4 (n : Nat) : List Char :=
  [digCh (n / 1000 % 10), digCh (n / 100 % 10), digCh (n / 10 % 10), digCh (n % 10)]

/-- `strftime "%a, %d %b %Y %H:%M:%S GMT"` on a broken-down time. -/
def formatRfc1123 (tm : Tm) : List Char :=
  (dayNames.getD tm.tm_wday "").data
    ++ ([',', ' ']
    ++ (pad2 tm.tm_mday
    ++ ([' ']
    ++ ((monNames.getD tm.tm_mon "").data
    ++ ([' ']
    ++ (pad4 (tm.tm_year + 1900).toNat
    ++ ([' ']
    ++ (pad2 tm.tm_hour
    ++ ([':']
    ++ (pad2 tm.tm_min
    ++ ([':']
    ++ (pad2 tm.tm_sec
    ++ [' ', 'G', 'M', 'T']))))))))))))

/-- `util.c` `time_to_http_date`: `gmtime_r` followed by
`strftime "%a, %d %b %Y %H:%M:%S GMT"`. -/
def time_to_http_date (t : Int) : String := ⟨formatRfc1123 (secsToTm t)⟩

/-- Expects the literal `lit` at the head of the input and returns the rest. -/
def parseLit : List Char → List Char → Option (List Char)
  | [], s => some s
  | _ :: _, [] => none
  | c :: cs, a :: as => if a == c then parseLit cs as else none

/-- Tries each name in `names` in order (as `strptime`'s `match_string`
over a name table); returns the index of the first match and the rest. -/
def parseNameRec (j : Nat) : List String → List Char → Option (Nat × List Char)
  | [], _ => none
  | n :: rest, s =>
    match parseLit n.data s with
    | some s' => some (j, s')
    | none => parseNameRec (j + 1) rest s

def parseNameIdx (names : List String) (s : List Char) : Option (Nat × List Char) :=
  parseNameRec 0 names s

/-- Greedy digit accumulation, at most `k` further digits. -/
def parseNumAux : Nat → Nat → List Char → Nat × List Char
  | 0, acc, s => (acc, s)
  | _ + 1, acc, [] => (acc, [])
  | k + 1, acc, c :: s =>
    if csIsDigit c then parseNumAux k (acc * 10 + digVal c) s else (acc, c :: s)

/-- `strptime` numeric field: 1 to `k` digits, greedy. -/
def parseNumMax (k : Nat) : List Char → Option (Nat × List Char)
  | c :: s => if csIsDigit c then some (parseNumAux (k - 1) (digVal c) s) else none
  | [] => none

/-- The shared `%H:%M:%S` part of the three `strptime` formats. -/
def parseHMS (s : List Char) : Option ((Nat × Nat × Nat) × List Char) :=
  (parseNumMax 2 s).bind fun ph =>
  (parseLit [':'] ph.2).bind fun s1 =>
  (parseNumMax 2 s1).bind fun pmi =>
  (parseLit [':'] pmi.2).bind fun s2 =>
  (parseNumMax 2 s2).map fun ps => ((ph.1, pmi.1, ps.1), ps.2)

/-- `strptime "%a, %d %b %Y %H:%M:%S GMT"` (the rfc1123-date branch of
`http_date_to_time`).  Fields not set by the format keep the value 0 the
caller's `bzero` left in the `struct tm`. -/
def parseRfc1123 (s : List Char) : Option Tm :=
  (parseNameIdx dayNames s).bind fun pw =>
  (parseLit [',', ' '] pw.2).bind fun s1 =>
  (parseNumMax 2 s1).bind fun pd =>
  (parseLit [' '] pd.2).bind fun s2 =>
  (parseNameIdx monNames s2).bind fun pm =>
  (parseLit [' '] pm.2).bind fun s3 =>
  (parseNumMax 4 s3).bind fun py =>
  (parseLit [' '] py.2).bind fun s4 =>
  (parseHMS s4).bind fun phms =>
  (parseLit [' ', 'G', 'M', 'T'] phms.2).map fun _ =>
  { tm_sec := phms.1.2.2, tm_min := phms.1.2.1, tm_hour := phms.1.1, tm_mday := pd.1,
    tm_mon := pm.1, tm_year := (py.1 : Int) - 1900, tm_wday := pw.1 }

/-- `strptime "%A, %d-%b-%y %H:%M:%S GMT"` (the rfc850-date branch).
`%y` follows POSIX: 69–99 is 1900-based, 0–68 is 2000-based. -/
def parseRfc850 (s : List Char) : Option Tm :=
  (parseNameIdx dayNamesFull s).bind fun pw =>
  (parseLit [',', ' '] pw.2).bind fun s1 =>
  (parseNumMax 2 s1).bind fun pd =>
  (parseLit ['-'] pd.2).bind fun s2 =>
  (parseNameIdx monNames s2).bind fun pm =>
  (parseLit ['-'] pm.2).bind fun s3 =>
  (parseNumMax 2 s3).bind fun py =>
  (parseLit [' '] py.2).bind fun s4 =>
  (parseHMS s4).bind fun phms =>
  (parseLit [' ', 'G', 'M', 'T'] phms.2).map fun _ =>
  { tm_sec := phms.1.2.2, tm_min := phms.1.2.1, tm_hour := phms.1.1, tm_mday := pd.1,
    tm_mon := pm.1, tm_year := (if py.1 ≤ 68 then (py.1 : Int) + 100 else (py.1 : Int)),
    tm_wday := pw.1 }

/-- `strptime "%a %b %e %H:%M:%S %Y"` (the asctime-date branch); the
whitespace before `%e` absorbs the space padding of single-digit days. -/
def parseAsctime (s : List Char) : Option Tm :=
  (parseNameIdx dayNames s).bind fun pw =>
  (parseLit [' '] pw.2).bind fun s1 =>
  (parseNameIdx monNames s1).bind fun pm =>
  (parseLit [' '] pm.2).bind fun s2 =>
  (parseNumMax 2 (s2.dropWhile csIsSpace)).bind fun pd =>
  (parseLit [' '] pd.2).bind fun s3 =>
  (parseHMS s3).bind fun phms =>
  (parseLit [' '] phms.2).bind fun s4 =>
  (parseNumMax 4 s4).map fun py =>
  { tm_sec := phms.1.2.2, tm_min := phms.1.2.1, tm_hour := phms.1.1, tm_mday := pd.1,
    tm_mon := pm.1, tm_year := (py.1 : Int) - 1900, tm_wday := pw.1 }

/-- `strchr(s, c)`: index of the first occurrence of `c`. -/
def findCharIdx (c : Char) : List Char → Option Nat
  | [] => none
  | a :: as => if a == c then some 0 else (findCharIdx c as).map (· + 1)

/-- `util.c` `http_date_to_time`: picks the date format from the comma
position, parses with `strptime`, converts with `mktime` (modelled for a
`TZ=UTC` process), and rejects an `mktime` result of `-1`.  Returns
`none` where the C function returns `-1`. -/
def http_date_to_time (date : String) : Option Int :=
  let parsed :=
    match findCharIdx ',' date.data with
    | none => parseAsctime date.data
    | some weekdayLen =>
      if weekdayLen == 3 then parseRfc1123 date.data else parseRfc850 date.data
  match parsed with
  | none => none
  | some tm =>
    let t := timegmModel tm
    if t == -1 then none else some t

/-! ## Inversion lemmas: the parser recovers what strftime printed -/

theorem parseLit_append_self : ∀ (l r : List Char), parseLit l (l ++ r) = some r := by
  intro l
  induction l with
  | nil => intro r; rfl
  | cons c cs ih => intro r; simp [parseLit, ih]

theorem parseLit_append_ne :
    ∀ (l p : List Char) (r : List Char), l.length = p.length → l ≠ p →
      parseLit l (p ++ r) = none := by
  intro l
  induction l with
  | nil =>
    intro p r hlen hne
    cases p with
    | nil => exact absurd rfl hne
    | cons a as => simp at hlen
  | cons c cs ih =>
    intro p r hlen hne
    cases p with
    | nil => simp at hlen
    | cons a as =>
      simp only [List.cons_append, parseLit]
      by_cases hac : a = c
      · subst hac
        simp only [beq_self_eq_true, if_true]
        refine ih as r (by simpa using hlen) ?_
        intro hcs
        exact hne (by rw [hcs])
      · simp [hac]

theorem parseNameRec_getD :
    ∀ (names : List String) (j i : Nat) (r : List Char),
      i < names.length →
      (∀ n ∈ names, n.data.length = 3) →
      names.Pairwise (fun a b => a.data ≠ b.data) →
      parseNameRec j names ((names.getD i "").data ++ r) = some (j + i, r) := by
  intro names
  induction names with
  | nil => intro j i r hi; simp at hi
  | cons n rest ih =>
    intro j i r hi hlen hpw
    cases i with
    | zero =>
      simp only [List.getD_cons_zero, parseNameRec, parseLit_append_self, Nat.add_zero]
    | succ m =>
      have hm : m < rest.length := by simpa using hi
      have hmem : rest.getD m "" ∈ rest := by
        rw [List.getD_eq_getElem?_getD, List.getElem?_eq_getElem hm, Option.getD_some]
        exact List.getElem_mem hm
      have hne : n.data ≠ (rest.getD m "").data :=
        (List.pairwise_cons.mp hpw).1 _ hmem
      have hlen2 : n.data.length = (rest.getD m "").data.length := by
        rw [hlen n (List.mem_cons_self n rest), hlen _ (List.mem_cons_of_mem _ hmem)]
      rw [List.getD_cons_succ]
      show (match parseLit n.data ((rest.getD m "").data ++ r) with
        | some s' => some (j, s')
        | none => parseNameRec (j + 1) rest ((rest.getD m "").data ++ r))
        = some (j + (m + 1), r)
      rw [parseLit_append_ne _ _ _ hlen2 hne]
      rw [ih (j + 1) m r hm (fun x hx => hlen x (List.mem_cons_of_mem _ hx))
        (List.pairwise_cons.mp hpw).2]
      have harith : j + 1 + m = j + (m + 1) := by omega
      rw [harith]

theorem parseNameIdx_getD (names : List String) (i : Nat) (r : List Char)
    (hi : i < names.length) (hlen : ∀ n ∈ names, n.data.length = 3)
    (hpw : names.Pairwise (fun a b => a.data ≠ b.data)) :
    parseNameIdx names ((names.getD i "").data ++ r) = some (i, r) := by
  have := parseNameRec_getD names 0 i r hi hlen hpw
  simpa [parseNameIdx] using this

theorem digVal_digCh (d : Nat) (h : d < 10) : digVal (digCh d) = d := by
  interval_cases d <;> rfl

theorem csIsDigit_digCh (d : Nat) (h : d < 10) : csIsDigit (digCh d) = true := by
  interval_cases d <;> rfl

theorem parseNumAux_digit (k acc d : Nat) (hd : d < 10) (s : List Char) :
    parseNumAux (k + 1) acc (digCh d :: s) = parseNumAux k (acc * 10 + d) s := by
  simp only [parseNumAux]
  rw [csIsDigit_digCh _ hd, if_pos rfl, digVal_digCh _ hd]

theorem parseNumMax_digit (k d : Nat) (hd : d < 10) (s : List Char) :
    parseNumMax k (digCh d :: s) = some (parseNumAux (k - 1) d s) := by
  simp only [parseNumMax]
  rw [csIsDigit_digCh _ hd, if_pos rfl, digVal_digCh _ hd]

theorem parseNumMax_pad2 (n : Nat) (h : n < 100) (r : List Char) :
    parseNumMax 2 (pad2 n ++ r) = some (n, r) := by
  have hlist : pad2 n ++ r = digCh (n / 10 % 10) :: digCh (n % 10) :: r := by
    simp [pad2]
  rw [hlist, parseNumMax_digit 2 _ (by omega)]
  show some (parseNumAux 1 (n / 10 % 10) (digCh (n % 10) :: r)) = _
  rw [parseNumAux_digit 0 _ _ (by omega)]
  show some (n / 10 % 10 * 10 + n % 10, r) = _
  have : n / 10 % 10 * 10 + n % 10 = n := by omega
  rw [this]

theorem parseNumMax_pad4 (n : Nat) (h : n < 10000) (r : List Char) :
    parseNumMax 4 (pad4 n ++ r) = some (n, r) := by
  have hlist : pad4 n ++ r = digCh (n / 1000 % 10) :: digCh (n / 100 % 10)
      :: digCh (n / 10 % 10) :: digCh (n % 10) :: r := by
    simp [pad4]
  rw [hlist, parseNumMax_digit 4 _ (by omega)]
  show some (parseNumAux 3 (n / 1000 % 10)
    (digCh (n / 100 % 10) :: digCh (n / 10 % 10) :: digCh (n % 10) :: r)) = _
  rw [parseNumAux_digit 2 _ _ (by omega), parseNumAux_digit 1 _ _ (by omega),
    parseNumAux_digit 0 _ _ (by omega)]
  show some (((n / 1000 % 10 * 10 + n / 100 % 10) * 10 + n / 10 % 10) * 10 + n % 10, r) = _
  have : ((n / 1000 % 10 * 10 + n / 100 % 10) * 10 + n / 10 % 10) * 10 + n % 10 = n := by
    omega
  rw [this]

theorem parseHMS_pad (h mi sec : Nat) (hh : h < 100) (hmi : mi < 100) (hs : sec < 100)
    (r : List Char) :
    parseHMS (pad2 h ++ ([':'] ++ (pad2 mi ++ ([':'] ++ (pad2 sec ++ r)))))
      = some ((h, mi, sec), r) := by
  simp only [parseHMS]
  rw [parseNumMax_pad2 _ hh]
  simp only [Option.some_bind]
  rw [parseLit_append_self]
  simp only [Option.some_bind]
  rw [parseNumMax_pad2 _ hmi]
  simp only [Option.some_bind]
  rw [parseLit_append_self]
  simp only [Option.some_bind]
  rw [parseNumMax_pad2 _ hs]
  simp only [Option.map_some']

theorem parseRfc1123_formatRfc1123 (tm : Tm) (hw : tm.tm_wday < 7) (hmo : tm.tm_mon < 12)
    (hd : tm.tm_mday < 100) (hh : tm.tm_hour < 100) (hmi : tm.tm_min < 100)
    (hs : tm.tm_sec < 100) (hy0 : 0 ≤ tm.tm_year + 1900) (hy1 : tm.tm_year + 1900 < 10000) :
    parseRfc1123 (formatRfc1123 tm) = some tm := by
  have hwlen : tm.tm_wday < dayNames.length := by simpa [dayNames] using hw
  have hmlen : tm.tm_mon < monNames.length := by simpa [monNames] using hmo
  have hy4 : (tm.tm_year + 1900).toNat < 10000 := by omega
  simp only [formatRfc1123, parseRfc1123]
  rw [parseNameIdx_getD dayNames tm.tm_wday _ hwlen (by decide) (by decide)]
  simp only [Option.some_bind]
  rw [parseLit_append_self]
  simp only [Option.some_bind]
  rw [parseNumMax_pad2 _ hd]
  simp only [Option.some_bind]
  rw [parseLit_append_self]
  simp only [Option.some_bind]
  rw [parseNameIdx_getD monNames tm.tm_mon _ hmlen (by decide) (by decide)]
  simp only [Option.some_bind]
  rw [parseLit_append_self]
  simp only [Option.some_bind]
  rw [parseNumMax_pad4 _ hy4]
  simp only [Option.some_bind]
  rw [parseLit_append_self]
  simp only [Option.some_bind]
  rw [parseHMS_pad _ _ _ hh hmi hs]
  simp only [Option.some_bind]
  rw [show parseLit [' ', 'G', 'M', 'T'] [' ', 'G', 'M', 'T'] = some [] from rfl]
  simp only [Option.map_some']
  have hyr : (((tm.tm_year + 1900).toNat : Int)) - 1900 = tm.tm_year := by omega
  rw [hyr]

theorem findCharIdx_append_cons (c : Char) :
    ∀ (a b : List Char), c ∉ a → findCharIdx c (a ++ (c :: b)) = some a.length := by
  intro a
  induction a with
  | nil => intro b _; simp [findCharIdx]
  | cons x xs ih =>
    intro b h
    have hx : x ≠ c := fun he => h (he ▸ List.mem_cons_self x xs)
    have hxs : c ∉ xs := fun hm => h (List.mem_cons_of_mem _ hm)
    simp only [List.cons_append, findCharIdx, List.append_eq]
    rw [if_neg (by simpa using hx), ih b hxs]
    rfl

theorem findCharIdx_formatRfc1123 (tm : Tm) (hw : tm.tm_wday < 7) :
    findCharIdx ',' (formatRfc1123 tm) = some 3 := by
  have hwlen : tm.tm_wday < dayNames.length := by simpa [dayNames] using hw
  have hmem : dayNames.getD tm.tm_wday "" ∈ dayNames := by
    rw [List.getD_eq_getElem?_getD, List.getElem?_eq_getElem hwlen, Option.getD_some]
    exact List.getElem_mem hwlen
  have hprop : ∀ n ∈ dayNames, n.data.length = 3 ∧ ',' ∉ n.data := by decide
  obtain ⟨hlen3, hnc⟩ := hprop _ hmem
  simp only [formatRfc1123, List.cons_append]
  rw [findCharIdx_append_cons ',' _ _ hnc, hlen3]

theorem secsToTm_bounds (t : Int) (h0 : 0 ≤ t) (h1 : t < 253402300800) :
    (secsToTm t).tm_wday < 7 ∧ (secsToTm t).tm_mon < 12 ∧
    (secsToTm t).tm_mday < 100 ∧ (secsToTm t).tm_hour < 100 ∧
    (secsToTm t).tm_min < 100 ∧ (secsToTm t).tm_sec < 100 ∧
    0 ≤ (secsToTm t).tm_year + 1900 ∧ (secsToTm t).tm_year + 1900 < 10000 := by
  have hdays2 : (t / 86400).toNat < 2932897 := by omega
  obtain ⟨hc, hy1, hy2, hm1, hm2⟩ := civilToDays_daysToCivil (t / 86400).toNat hdays2
  have hml : monthLen (isLeap (daysToCivil (t / 86400).toNat).1)
      (daysToCivil (t / 86400).toNat).2.1 ≤ 31 := by
    generalize (daysToCivil (t / 86400).toNat).2.1 = m at *
    generalize isLeap (daysToCivil (t / 86400).toNat).1 = l at *
    interval_cases m <;> cases l <;> simp [monthLen]
  have hrem : (t % 86400).toNat < 86400 := by omega
  simp only [secsToTm]
  refine ⟨by omega, hm1, by omega, by omega, by omega, by omega, by omega, by omega⟩

theorem http_date_to_time_time_to_http_date (t : Int) (h0 : 0 ≤ t)
    (h1 : t < 253402300800) :
    http_date_to_time (time_to_http_date t) = some t := by
  obtain ⟨hw, hmo, hd, hh, hmi, hs, hy0, hy1⟩ := secsToTm_bounds t h0 h1
  have hfind := findCharIdx_formatRfc1123 (secsToTm t) hw
  have hparse := parseRfc1123_formatRfc1123 (secsToTm t) hw hmo hd hh hmi hs hy0 hy1
  have hdata : (time_to_http_date t).data = formatRfc1123 (secsToTm t) := rfl
  simp only [http_date_to_time, hdata, hfind]
  norm_num
  rw [hparse]
  simp only [timegmModel_secsToTm t h0 h1]
  rw [if_neg (by omega : ¬t = -1)]

/-! ## `http.h` data model (`struct request`, `struct response`) -/

def REQUEST_METHOD_GET : Int := 1
def REQUEST_METHOD_HEAD : Int := 2
def REQUEST_METHOD_POST : Int := 3

def RESPONSE_STATUS_OK : Int := 200
def RESPONSE_STATUS_BAD_REQUEST : Int := 400
def RESPONSE_STATUS_FORBIDDEN : Int := 403
def RESPONSE_STATUS_NOT_FOUND : Int := 404
def RESPONSE_STATUS_NOT_IMPLEMENTED : Int := 501
def RESPONSE_STATUS_VERSION_NOT_SUPPORTED : Int := 505
def RESPONSE_STATUS_CONNECTION_TIMED_OUT : Int := 522
def RESPONSE_STATUS_INTERNAL_SERVER_ERROR : Int := 500

/-- `http.h` `struct request`. -/
structure Request where
  path : String
  method : Int
  if_modified_since_date : Int
  content_length : Int
  content_type : String
  querystring : String
  version_major : Int
  version_minor : Int
deriving Repr, DecidableEq

/-- `http.c` `init_request`: `-1` sentinels and zeroed buffers. -/
def init_request : Request :=
  { path := "", method := -1, if_modified_since_date := -1, content_length := -1,
    content_type := "", querystring := "", version_major := -1, version_minor := -1 }

/-- `http.h` `struct response`. -/
structure Response where
  code : Int
  last_modified : Int
  content_type : String
  content_length : Int
deriving Repr, DecidableEq

/-- `http.c` `init_response`: sets the code, zero length, empty type,
`-1` last-modified. -/
def init_response (code : Int) : Response :=
  { code := code, content_length := 0, content_type := "", last_modified := -1 }

/-! ## Header-line parsing (`http.c` `httpd`, lines 198–244) -/

/-- C `strncasecmp(h, key, strlen(key)) == 0`: the first `key.length`
characters of `h` match `key` case-insensitively (a shorter `h` fails,
since its terminating NUL byte mismatches the next key character). -/
def strncaseEq (h key : String) : Bool :=
  key.length ≤ h.length
    && ((h.data.take key.length).map csTolower == key.data.map csTolower)

/-- Accumulated value of a digit string, as `atoi`'s loop computes it. -/
def digitsVal (ds : List Char) : Nat := ds.foldl (fun a c => a * 10 + digVal c) 0

/-- C `atoi`: optional whitespace, optional sign, then greedy digits;
returns 0 when no digits follow. -/
def atoiC (s : List Char) : Int :=
  match s.dropWhile csIsSpace with
  | [] => 0
  | a :: rest =>
    if a = '-' then -(digitsVal (rest.takeWhile csIsDigit) : Int)
    else if a = '+' then (digitsVal (rest.takeWhile csIsDigit) : Int)
    else (digitsVal ((a :: rest).takeWhile csIsDigit) : Int)

/-- The `Content-Length:` (prefix length 15) and `Content-Type:`
(prefix length 13) checks of the header `while` loop:
`Content-Length` goes through `atoi` at offset 16, `Content-Type` is
copied (truncated to 63 characters) from offset 14. -/
def processHeaderRest (req : Request) (h : String) : Request × Bool :=
  let r2 :=
    if h.length > 15 + 2 && strncaseEq h "Content-Length:" then
      { req with content_length := atoiC (h.data.drop 16) }
    else req
  let r3 :=
    if h.length > 13 + 2 && strncaseEq h "Content-Type:" then
      { r2 with content_type := ⟨(h.data.drop 14).take 63⟩ }
    else r2
  (r3, false)

/-- One iteration of the header `while` loop of `httpd`
(`http.c` lines 198–244) on header line `h`: returns the updated request
and the `header_parsing_failed` flag.  A header longer than the
`If-Modified-Since:` prefix (length 18) that matches it
case-insensitively has its date parsed; an unparsable date sets the
failure flag and stops the loop, skipping the remaining checks for this
line. -/
def processHeaderLine (req : Request) (h : String) : Request × Bool :=
  if h.length > 18 && strncaseEq h "If-Modified-Since:" then
    match http_date_to_time ⟨(h.data.drop 18).dropWhile csIsSpace⟩ with
    | none => (req, true)
    | some t => processHeaderRest { req with if_modified_since_date := t } h
  else processHeaderRest req h

/-! ## Request reception (`http.c` `httpd`, lines 161–181)

`httpd` reads into a fixed `char buf[4096]`, keeping one byte for the
terminating NUL (`remain_buf = sizeof(buf) - 1 = 4095`), and loops until
the buffer holds the `CRLF CRLF` header terminator, the peer stops
sending, or the buffer is full (a `read` with count 0 returns 0 and
breaks the loop).  The byte stream is modelled as the full list of bytes
the client would send; each `read`'s size is the minimum of the kernel's
chunk choice (the `sched` list), the remaining buffer space, and the
remaining stream. -/

/-- `strstr(hay, needle) != NULL`: some suffix of `hay` starts with
`needle`. -/
def strstrContains (hay needle : List Char) : Bool :=
  if needle.isPrefixOf hay then true
  else
    match hay with
    | [] => false
    | _ :: t => strstrContains t needle

theorem strstrContains_iff_sub (needle : List Char) :
    ∀ hay, strstrContains hay needle = true ↔ needle <:+: hay := by
  intro hay
  induction hay with
  | nil =>
    simp only [strstrContains]
    by_cases h : needle.isPrefixOf ([] : List Char)
    · rw [if_pos h]
      simp only [true_iff]
      exact (List.isPrefixOf_iff_prefix.mp h).isInfix
    · rw [if_neg h]
      constructor
      · intro hfalse; simp at hfalse
      · intro hinf
        have hn : needle = [] := List.eq_nil_of_infix_nil hinf
        subst hn
        exact absurd rfl h
  | cons a t ih =>
    simp only [strstrContains]
    by_cases h : needle.isPrefixOf (a :: t)
    · rw [if_pos h]
      simp only [true_iff]
      exact (List.isPrefixOf_iff_prefix.mp h).isInfix
    · rw [if_neg h, ih, List.infix_cons_iff]
      constructor
      · exact Or.inr
      · rintro (hp | hi)
        · exact absurd (List.isPrefixOf_iff_prefix.mpr hp) h
        · exact hi

def crlfCrlf : List Char := ['\r', '\n', '\r', '\n']

/-- `strstr(buf, "\r\n\r\n") != NULL`. -/
def hasHeaderTerminator (buf : List Char) : Bool := strstrContains buf crlfCrlf

/-- The `do … while` receive loop.  `stream` is what the client still has
to send, `remain` the free buffer space, `buf` the bytes stored so far. -/
def recvLoop : List Char → Nat → List Char → List Nat → List Char
  | _, _, buf, [] => buf
  | stream, remain, buf, c :: sched =>
    let k := min (min c remain) stream.length
    if k = 0 then buf
    else
      let buf' := buf ++ stream.take k
      if hasHeaderTerminator buf' then buf'
      else recvLoop (stream.drop k) (remain - k) buf' sched

/-- Outcome of the reception stage of `httpd`: either the early
`400 Bad Request` reply of lines 179–181 (no request is parsed, no path
resolution happens) or the filled buffer handed to the parser. -/
inductive FrontOutcome where
  | earlyReject (code : Int)
  | proceed (buf : List Char)
deriving Repr, DecidableEq

def httpdFront (stream : List Char) (sched : List Nat) : FrontOutcome :=
  let buf := recvLoop stream 4095 [] sched
  if hasHeaderTerminator buf then .proceed buf
  else .earlyReject RESPONSE_STATUS_BAD_REQUEST

theorem recvLoop_invariant :
    ∀ (sched : List Nat) (stream buf : List Char) (remain : Nat),
      buf.length + remain = 4095 →
      (recvLoop stream remain buf sched).length ≤ 4095 ∧
      (recvLoop stream remain buf sched) <+: (buf ++ stream) := by
  intro sched
  induction sched with
  | nil =>
    intro stream buf remain hlen
    refine ⟨by simp only [recvLoop]; omega, ?_⟩
    simp only [recvLoop]
    exact List.prefix_append _ _
  | cons c rest ih =>
    intro stream buf remain hlen
    simp only [recvLoop]
    by_cases hk : min (min c remain) stream.length = 0
    · rw [if_pos hk]
      exact ⟨by omega, List.prefix_append _ _⟩
    · rw [if_neg hk]
      by_cases hterm : hasHeaderTerminator (buf ++ stream.take (min (min c remain) stream.length))
      · rw [if_pos hterm]
        constructor
        · have : (stream.take (min (min c remain) stream.length)).length ≤ remain := by
            simp only [List.length_take]
            omega
          simp only [List.length_append]
          omega
        · refine ⟨stream.drop (min (min c remain) stream.length), ?_⟩
          simp [List.append_assoc, List.take_append_drop]
      · rw [if_neg hterm]
        have hk1 : min (min c remain) stream.length ≤ remain := by omega
        have hk2 : min (min c remain) stream.length ≤ stream.length := by omega
        have h1 : (buf ++ stream.take (min (min c remain) stream.length)).length
            + (remain - min (min c remain) stream.length) = 4095 := by
          simp only [List.length_append, List.length_take]
          omega
        obtain ⟨ha, hb⟩ := ih (stream.drop (min (min c remain) stream.length))
          (buf ++ stream.take (min (min c remain) stream.length))
          (remain - min (min c remain) stream.length) h1
        refine ⟨ha, ?_⟩
        have heq : (buf ++ stream.take (min (min c remain) stream.length))
            ++ stream.drop (min (min c remain) stream.length) = buf ++ stream := by
          simp [List.append_assoc, List.take_append_drop]
        rw [heq] at hb
        exact hb

/-! ## Path containment check (`http.c` `checkuri`, lines 949–983)

After `realpath` has canonicalized both the requested path and the
resolution root, `checkuri` decides between `200 OK` and `403 Forbidden`
with `strstr(uri_real_path, server_real_path)`: a *substring* test. -/

/-- The containment decision of `checkuri` on the two canonical paths:
`strstr(uri_real_path, server_real_path) != NULL` yields `OK`,
otherwise `Forbidden`. -/
def checkuriContainment (uriRealPath serverRealPath : String) : Int :=
  if strstrContains uriRealPath.data serverRealPath.data then RESPONSE_STATUS_OK
  else RESPONSE_STATUS_FORBIDDEN

/-- The specification's notion of containment: the canonical path equals
the canonical root or is a path-separator-delimited descendant of it. -/
def specContained (uriRealPath serverRealPath : String) : Prop :=
  uriRealPath = serverRealPath ∨
    (serverRealPath.data ++ ['/']).isPrefixOf uriRealPath.data = true

/-! ## Request-line classification and method dispatch
(`http.c` `httpd`, lines 246–344)

`checkuri`'s filesystem interaction (`getpwnam`, `realpath`, `access`,
`stat`) is summarized by a resolution oracle passed in the context: for
a method and a request path it yields the HTTP status, the
`cgi_request` flag, and the canonical `realpath_str`.  The containment
decision inside `checkuri` is verified separately on
`checkuriContainment`. -/

/-- C `strcasecmp(a, b) == 0`. -/
def strcasecmpEq (a b : String) : Bool :=
  a.data.map csTolower == b.data.map csTolower

/-- `strncasecmp(tok, "HTTP/1.0", 8) == 0` as in line 267: only the
first 8 characters are compared; a shorter token fails because its NUL
byte mismatches the pattern. -/
def versionTokOk (tok : String) : Bool :=
  8 ≤ tok.length && ((tok.data.take 8).map csTolower == "http/1.0".data)

/-- Result of a `checkuri` call: `*uri_status`, `*cgi_request`,
`realpath_str`. -/
structure ResolveRes where
  status : Int
  cgi : Bool
  realpath : String

/-- Per-connection server context: whether `-c` (a CGI directory) was
given, and the `checkuri` resolution oracle (method code, request path). -/
structure HttpdCtx where
  cgiConfigured : Bool
  resolve : Int → String → ResolveRes

/-- State after the method-dispatch `if`/`else` chain: the response code
chosen, the updated request, the `cgi_request` flag, the
`simple_request` flag. -/
structure DispatchRes where
  code : Int
  req : Request
  cgi : Bool
  simple : Bool
deriving Repr

def httpdDispatch (ctx : HttpdCtx) (headerFailed : Bool) (tokens : List String)
    (req0 : Request) : DispatchRes :=
  let tokenCount := tokens.length
  let simple := tokenCount == 2
  let req1 :=
    if simple then { req0 with version_major := 0, version_minor := 9 }
    else { req0 with version_major := 1, version_minor := 0 }
  let methodTok := tokens.headD ""
  let versionTok := (tokens.getLast?).getD ""
  let uriTok := tokens.getD 1 ""
  if headerFailed || (tokenCount != 3 && !simple) then
    { code := RESPONSE_STATUS_BAD_REQUEST, req := req1, cgi := false, simple := simple }
  else if !versionTokOk versionTok && !simple then
    { code := RESPONSE_STATUS_VERSION_NOT_SUPPORTED, req := req1, cgi := false,
      simple := simple }
  else if strcasecmpEq methodTok "GET" then
    let req2 := { req1 with method := REQUEST_METHOD_GET, path := uriTok }
    let r := ctx.resolve REQUEST_METHOD_GET uriTok
    if r.status == RESPONSE_STATUS_OK then
      { code := r.status, req := { req2 with path := r.realpath }, cgi := r.cgi,
        simple := simple }
    else
      { code := r.status, req := req2, cgi := r.cgi, simple := simple }
  else if strcasecmpEq methodTok "HEAD" && !simple then
    let req2 := { req1 with method := REQUEST_METHOD_HEAD, path := uriTok }
    let r := ctx.resolve REQUEST_METHOD_HEAD uriTok
    if r.status == RESPONSE_STATUS_OK then
      { code := r.status, req := { req2 with path := r.realpath }, cgi := r.cgi,
        simple := simple }
    else
      { code := r.status, req := req2, cgi := r.cgi, simple := simple }
  else if strcasecmpEq methodTok "POST" && !simple then
    let req2 := { req1 with method := REQUEST_METHOD_POST }
    if !ctx.cgiConfigured then
      { code := RESPONSE_STATUS_BAD_REQUEST, req := req2, cgi := false, simple := simple }
    else
      let req3 := { req2 with path := uriTok }
      let r := ctx.resolve REQUEST_METHOD_POST uriTok
      if !r.cgi && r.status == RESPONSE_STATUS_OK then
        { code := RESPONSE_STATUS_BAD_REQUEST, req := req3, cgi := r.cgi, simple := simple }
      else
        { code := r.status, req := { req3 with path := r.realpath }, cgi := r.cgi,
          simple := simple }
  else
    { code := RESPONSE_STATUS_NOT_IMPLEMENTED, req := req1, cgi := false, simple := simple }

/-! ## Response composition
(`http.c` `coderesp`, `coderesp_headers`, `send_generic_page`,
`set_entity_body_headers`) -/

/-- What a `stat` plus the MIME oracle report for a path. -/
structure StatInfo where
  size : Int
  mtime : Int
  isDir : Bool
  mime : String

/-- `set_entity_body_headers`: on a successful `stat`, copy MIME type,
size and mtime into the response; on failure return leaving the
response unchanged. -/
def set_entity_body_headers (r : Response) (st : Option StatInfo) : Response :=
  match st with
  | none => r
  | some s =>
    { r with content_type := s.mime, content_length := s.size, last_modified := s.mtime }

/-- Everything written to the client socket, structured: the status line
(with reason phrase) when one is sent, the header lines, the entity
body. -/
structure Wire where
  statusLine : Option (Int × String)
  headers : List String
  body : List Char
deriving Repr

/-- The reason-phrase table of `coderesp`; `none` for a code outside the
table (which `coderesp` rewrites to 500). -/
def reasonPhrase (code : Int) : Option String :=
  if code == RESPONSE_STATUS_OK then some "OK"
  else if code == RESPONSE_STATUS_BAD_REQUEST then some "Bad Request"
  else if code == RESPONSE_STATUS_FORBIDDEN then some "Forbidden"
  else if code == RESPONSE_STATUS_NOT_FOUND then some "Not Found"
  else if code == RESPONSE_STATUS_NOT_IMPLEMENTED then some "Not Implemented"
  else if code == RESPONSE_STATUS_VERSION_NOT_SUPPORTED then some "Version Not Supported"
  else if code == RESPONSE_STATUS_CONNECTION_TIMED_OUT then some "Connection Timed Out"
  else if code == RESPONSE_STATUS_INTERNAL_SERVER_ERROR then some "Internal Server Error"
  else none

/-- `coderesp_headers`: `Date`, `Server`, then `Last-Modified` (if set),
`Content-Type` (if non-empty), `Content-Length` (if ≥ 0). -/
def coderespHeaders (r : Response) (now : Int) : List String :=
  ["Date: " ++ time_to_http_date now, "Server: sws/1.0"]
    ++ (if r.last_modified != -1 then
          ["Last-Modified: " ++ time_to_http_date r.last_modified] else [])
    ++ (if r.content_type != "" then ["Content-Type: " ++ r.content_type] else [])
    ++ (if r.content_length ≥ 0 then ["Content-Length: " ++ toString r.content_length] else [])

/-- `coderesp`: nothing at all for a simple (HTTP/0.9) response;
otherwise the status line (unknown codes become 500) followed by the
headers. -/
def coderespWire (r : Response) (fullResponse : Bool) (now : Int) : Wire :=
  if !fullResponse then { statusLine := none, headers := [], body := [] }
  else
    match reasonPhrase r.code with
    | some p => { statusLine := some (r.code, p), headers := coderespHeaders r now, body := [] }
    | none =>
      { statusLine := some (RESPONSE_STATUS_INTERNAL_SERVER_ERROR, "Internal Server Error"),
        headers := coderespHeaders r now, body := [] }

/-- The `"%d - …"` message table of `send_generic_page`. -/
def genericMessage (code : Int) : String :=
  if code == RESPONSE_STATUS_OK then "200 - OK"
  else if code == RESPONSE_STATUS_BAD_REQUEST then "400 - Bad Request"
  else if code == RESPONSE_STATUS_FORBIDDEN then "403 - Forbidden"
  else if code == RESPONSE_STATUS_NOT_FOUND then "404 - File Not Found"
  else if code == RESPONSE_STATUS_NOT_IMPLEMENTED then "501 - Method Not Implemented"
  else if code == RESPONSE_STATUS_VERSION_NOT_SUPPORTED then
    "505 - HTTP Version Not Supported"
  else if code == RESPONSE_STATUS_INTERNAL_SERVER_ERROR then "500 - Internal Server Error"
  else toString code ++ " - Unknown"

/-- `send_generic_page`: builds the fixed HTML error page (with an
optional second paragraph), sets the response's content length/type,
sends headers via `coderesp` and then the page.  A 522 returns
immediately without output. -/
def send_generic_page_wire (r : Response) (simple : Bool) (customMsg : Option String)
    (now : Int) : Wire :=
  if r.code == RESPONSE_STATUS_CONNECTION_TIMED_OUT then
    { statusLine := none, headers := [], body := [] }
  else
    let msg := genericMessage r.code
    let html := "<html>\r\n<head>\r\n"
      ++ ("<title>Team Geronimo - " ++ msg ++ "</title>\r\n</head>\r\n")
      ++ ("<body>\r\n<h1>Team Geronimo</h1>\r\n")
      ++ (match customMsg with
          | some cm => "<p>" ++ msg ++ "</p>\r\n<p>" ++ cm ++ "</p>\r\n</body>\r\n</html>\r\n"
          | none => "<p>" ++ msg ++ "</p>\r\n</body>\r\n</html>\r\n")
    let r' := { r with content_length := (html.length : Int), content_type := "text/html" }
    let w := coderespWire r' (!simple) now
    { w with body := html.data }

/-! ## Directory listing (`http.c` `send_directory_listing`)

`scandir(path, &namelist, 0, alphasort)` enumerates all entries sorted
by `alphasort` (byte order in the "C" locale, modelled as the
lexicographic order on the character lists); the write loop emits every
entry with `strlen ≥ 1` whose name does not start with `.`, one per
line, terminated by CRLF.  Batched buffer flushes only split where the
bytes are written, not what is written, so the body is modelled as the
full concatenation. -/

/-- `alphasort` over the entry names. -/
def alphasortModel (names : List String) : List String :=
  names.mergeSort (fun a b => decide (a.data ≤ b.data))

/-- The entry lines of the listing body: sorted, dotfiles omitted. -/
def dirListingLines (names : List String) : List String :=
  (alphasortModel names).filter fun n => 1 ≤ n.length && n.data.headD ' ' != '.'

/-- `libgen` `basename`, simplified model: the part after the last `/`. -/
def basenameModel (p : String) : String :=
  ⟨(p.data.reverse.takeWhile (fun c => c ≠ '/')).reverse⟩

/-- The HTML page streamed by `send_directory_listing`. -/
def dirListingHtml (path : String) (names : List String) : String :=
  "<html>\r\n<head>\r\n"
    ++ ("<title>Team Geronimo - " ++ basenameModel path ++ "</title>\r\n</head>\r\n")
    ++ ("<body>\r\n<h1>Directory Listing for " ++ basenameModel path ++ "</h1>\r\n<p>\r\n")
    ++ String.join ((dirListingLines names).map (fun n => n ++ "\r\n"))
    ++ "</p>\r\n</body>\r\n</html>\r\n"

/-! ## Static file serving (`http.c` `fileserver`) -/

/-- `fileserver`: re-`stat`s the path (failure ⇒ 500 error page);
if `If-Modified-Since` is set and not earlier than the GMT-converted
mtime, sends only the headers with content-length forced to 0 and the
content type cleared; otherwise sends headers followed by either the
file bytes or a directory listing. -/
def fileserverWire (req : Request) (resp : Response) (simple : Bool)
    (st : Option StatInfo) (fileBytes : List Char) (dirNames : List String)
    (now : Int) : Wire :=
  match st with
  | none => send_generic_page_wire (init_response RESPONSE_STATUS_INTERNAL_SERVER_ERROR)
      simple none now
  | some s =>
    if req.if_modified_since_date != -1
        && req.if_modified_since_date ≥ local_to_gmtime s.mtime then
      coderespWire { resp with content_length := 0, content_type := "" } (!simple) now
    else
      let w := coderespWire resp (!simple) now
      if !s.isDir then { w with body := fileBytes }
      else { w with body := (dirListingHtml req.path dirNames).data }

/-! ## The `httpd` response phase (`http.c` lines 306–344) -/

/-- Composition of the dispatch phase with the response phase: which
bytes go to the client for a parsed request line (`tokens`), parsed
headers (`req0`, `headerFailed`), and the filesystem/CGI oracles. -/
def httpdWire (ctx : HttpdCtx) (headerFailed : Bool) (tokens : List String)
    (req0 : Request) (stat : String → Option StatInfo) (fileBytes : List Char)
    (dirNames : List String) (cgiOut : List Char) (now : Int) : Wire × Int :=
  let d := httpdDispatch ctx headerFailed tokens req0
  let resp0 := init_response d.code
  let serveFile := d.req.method == REQUEST_METHOD_GET
    && d.code == RESPONSE_STATUS_OK && !d.cgi
  let resp1 :=
    if d.code == RESPONSE_STATUS_OK
        && (d.req.method == REQUEST_METHOD_GET || d.req.method == REQUEST_METHOD_HEAD)
        && !d.cgi then
      set_entity_body_headers resp0 (stat d.req.path)
    else resp0
  if d.code == RESPONSE_STATUS_OK then
    if serveFile then
      (fileserverWire d.req resp1 d.simple (stat d.req.path) fileBytes dirNames now, d.code)
    else
      let w := coderespWire resp1 (!d.simple) now
      if d.cgi then ({ w with body := cgiOut }, d.code)
      else (w, d.code)
  else
    if d.req.method == REQUEST_METHOD_POST && !ctx.cgiConfigured then
      (send_generic_page_wire resp1 d.simple (some "CGI is not enabled in the server") now,
        d.code)
    else if d.req.method == REQUEST_METHOD_POST && !d.cgi then
      (send_generic_page_wire resp1 d.simple
        (some "The uri suplied with the POST resource must point to a CGI") now, d.code)
    else
      (send_generic_page_wire resp1 d.simple none now, d.code)

/-! ## CGI environment construction (`http.c` `execute_cgi`)

The child's environment is the list of strings passed to `putenv`.
For GET/HEAD the code guards the `QUERY_STRING` sprintf with
`if (!request->querystring)`: `querystring` is an array field, so the
condition is always false and `query_env` keeps whatever was on the
stack — modelled by the parameter `g` (the indeterminate initial
contents of the `query_env` buffer), which is `putenv`'d regardless.
POST with a non-positive `Content-Length` is rejected (`400`) before
any environment is built.  `none` models the error return `-1`. -/

def executeCgiChildEnv (g : String) (req : Request) : Option (List String) :=
  if req.method == REQUEST_METHOD_GET || req.method == REQUEST_METHOD_HEAD then
    let queryEnv := g
    let methEnv := if req.method == REQUEST_METHOD_GET then "REQUEST_METHOD =GET"
      else "REQUEST_METHOD =HEAD"
    let lengthEnv := "CONTENT_LENGTH =" ++ toString req.content_length
    let typeEnv := "CONTENT_TYPE =" ++ req.content_type
    some [queryEnv, methEnv, lengthEnv, typeEnv]
  else if req.method == REQUEST_METHOD_POST then
    if req.content_length ≤ 0 then none
    else
      let methEnv := "REQUEST_METHOD =POST"
      let lengthEnv := "CONTENT_LENGTH =" ++ toString req.content_length
      let typeEnv := "CONTENT_TYPE =" ++ req.content_type
      some [methEnv, lengthEnv, typeEnv]
  else none

/-! ## Helper lemmas for the claim theorems -/

theorem strcasecmpEq_false_of (m a b : String) (h : strcasecmpEq m a = true)
    (hne : a.data.map csTolower ≠ b.data.map csTolower) : strcasecmpEq m b = false := by
  simp only [strcasecmpEq, beq_iff_eq] at h
  simp only [strcasecmpEq, beq_eq_false_iff_ne, ne_eq, h]
  exact hne

theorem takeWhile_nil_of_none (p : Char → Bool) (l : List Char)
    (h : ∀ c ∈ l, p c = false) : l.takeWhile p = [] := by
  cases l with
  | nil => rfl
  | cons c cs =>
    simp only [List.takeWhile_cons]
    rw [h c (List.mem_cons_self c cs)]
    simp

theorem strncaseEq_take_eq (h key : String) (hq : strncaseEq h key = true) :
    (h.data.take key.data.length).map csTolower = key.data.map csTolower := by
  simp only [strncaseEq, Bool.and_eq_true, beq_iff_eq, decide_eq_true_eq] at hq
  exact hq.2

/-- Two header keys whose case-folded common prefixes differ cannot both
match the same header line. -/
theorem strncaseEq_incompat (h k1 k2 : String)
    (hne : (k1.data.take (min k1.data.length k2.data.length)).map csTolower
         ≠ (k2.data.take (min k1.data.length k2.data.length)).map csTolower)
    (h1 : strncaseEq h k1 = true) : strncaseEq h k2 = false := by
  by_contra hc
  have h2 : strncaseEq h k2 = true := by
    cases hb : strncaseEq h k2
    · exact absurd hb hc
    · rfl
  have e1 := strncaseEq_take_eq h k1 h1
  have e2 := strncaseEq_take_eq h k2 h2
  set n := min k1.data.length k2.data.length with hn
  have g1 := congrArg (List.take n) e1
  have g2 := congrArg (List.take n) e2
  rw [← List.map_take, List.take_take, ← List.map_take] at g1 g2
  have hn1 : min n k1.data.length = n := by omega
  have hn2 : min n k2.data.length = n := by omega
  rw [hn1] at g1
  rw [hn2] at g2
  exact hne ((g1.symm.trans g2))

/-! ## Claim theorems -/

/-- C1: the claim says that whenever the canonicalized request path is
neither equal to nor a path-separator-delimited descendant of the
canonical resolution root, `checkuri` returns `Forbidden (403)` and
never `OK (200)`.  The code instead tests
`strstr(uri_real_path, server_real_path) != NULL`, a substring match:
for canonical root `/a/b` and canonical request path `/a/bc` (a sibling
whose name extends the root's last component) the root occurs as a
substring, so `checkuri` answers `200 OK` even though `/a/bc` is neither
equal to `/a/b` nor below it.  This evaluates the code at that failing
input. -/
theorem C1_containment_uses_substring_not_descendant :
    checkuriContainment "/a/bc" "/a/b" = RESPONSE_STATUS_OK ∧
    checkuriContainment "/a/bc" "/a/b" ≠ RESPONSE_STATUS_FORBIDDEN ∧
    ¬ specContained "/a/bc" "/a/b" := by
  refine ⟨by decide, by decide, ?_⟩
  intro h
  rcases h with h | h
  · simp at h
  · simp [List.isPrefixOf] at h

/-- C6: the executor is claimed to build `REQUEST_METHOD`,
`QUERY_STRING` (for GET/HEAD, carrying the request's query string),
`CONTENT_LENGTH` and `CONTENT_TYPE` before spawning.  In the code the
`QUERY_STRING` sprintf is guarded by `if (!request->querystring)`,
which is always false for an array field, so the entry is never built
from the request: the child's environment is completely independent of
`request->querystring` (first conjunct), and for a GET request the
environment is exactly the indeterminate `query_env` buffer contents
plus the three other entries, none derived from the query string
(second conjunct). -/
theorem C6_query_string_entry_never_built_from_request (g : String) (req : Request)
    (q1 q2 : String) :
    executeCgiChildEnv g { req with querystring := q1 }
      = executeCgiChildEnv g { req with querystring := q2 } ∧
    executeCgiChildEnv g { req with method := REQUEST_METHOD_GET, querystring := q1 }
      = some [g, "REQUEST_METHOD =GET",
          "CONTENT_LENGTH =" ++ toString req.content_length,
          "CONTENT_TYPE =" ++ req.content_type] := by
  constructor
  · rfl
  · rfl

/-- C8: converting a timestamp with `time_to_http_date` and parsing the
result back with `http_date_to_time` is the identity (a `time_t` is
already at one-second resolution, so truncation is the identity), for
every timestamp from the epoch up to year 9999 (the four-digit `%Y`
range of the emitted RFC 1123 format; the `TZ=UTC` model of `mktime` is
described at the definitions). -/
theorem C8_http_date_roundtrip (t : Int) (h0 : 0 ≤ t) (h1 : t < 253402300800) :
    http_date_to_time (time_to_http_date t) = some t :=
  http_date_to_time_time_to_http_date t h0 h1

/-- C8 witness: the round trip evaluated at 1994-11-06 08:49:37 GMT. -/
theorem C8_http_date_roundtrip_witness :
    (0 : Int) ≤ 784111777 ∧ (784111777 : Int) < 253402300800 ∧
    http_date_to_time (time_to_http_date 784111777) = some 784111777 :=
  ⟨by decide, by decide, C8_http_date_roundtrip 784111777 (by decide) (by decide)⟩

/-- C5 counterexample: the claim says a malformed `Content-Length` value
leaves the request's content-length at the unset sentinel `-1`.  For
the header line `"Content-Length: abc"` (value not a well-formed
integer) the parser stores `atoi("abc") = 0`, not `-1` — though it
indeed does not fail the request. -/
theorem C5_malformed_content_length_counterexample :
    (processHeaderLine init_request "Content-Length: abc").1.content_length = 0 ∧
    init_request.content_length = -1 ∧
    (processHeaderLine init_request "Content-Length: abc").1.content_length
      ≠ init_request.content_length ∧
    (processHeaderLine init_request "Content-Length: abc").2 = false := by
  refine ⟨?_, by decide, ?_, ?_⟩ <;> decide

/-- C5 as amended: for every header line matching the `Content-Length:`
prefix whose value text (everything after the prefix plus one skipped
character, as the code indexes it) contains no digit at all, the parser
stores C `atoi`'s result `0` — not the unset sentinel — does not set the
header-parsing failure flag, and leaves `If-Modified-Since` untouched. -/
theorem C5_malformed_content_length_sets_zero (req : Request) (h : String)
    (hlen : h.length > 17)
    (hcl : strncaseEq h "Content-Length:" = true)
    (hnd : ∀ c ∈ h.data.drop 16, csIsDigit c = false) :
    (processHeaderLine req h).1.content_length = 0 ∧
    (processHeaderLine req h).2 = false ∧
    (processHeaderLine req h).1.if_modified_since_date = req.if_modified_since_date := by
  have hims : strncaseEq h "If-Modified-Since:" = false :=
    strncaseEq_incompat h "Content-Length:" "If-Modified-Since:" (by decide) hcl
  have hct : strncaseEq h "Content-Type:" = false :=
    strncaseEq_incompat h "Content-Length:" "Content-Type:" (by decide) hcl
  have hatoi : atoiC (h.data.drop 16) = 0 := by
    have hsub : ∀ c ∈ (h.data.drop 16).dropWhile csIsSpace, csIsDigit c = false := by
      intro c hc
      exact hnd c ((List.dropWhile_sublist _).mem hc)
    rw [atoiC]
    cases hd : (h.data.drop 16).dropWhile csIsSpace with
    | nil => rfl
    | cons a rest =>
      have hrest : ∀ c ∈ rest, csIsDigit c = false := by
        intro c hc
        exact hsub c (hd ▸ List.mem_cons_of_mem a hc)
      have ha : csIsDigit a = false := hsub a (hd ▸ List.mem_cons_self a rest)
      simp only []
      by_cases hminus : a = '-'
      · rw [if_pos hminus, takeWhile_nil_of_none _ _ hrest]
        rfl
      · rw [if_neg hminus]
        by_cases hplus : a = '+'
        · rw [if_pos hplus, takeWhile_nil_of_none _ _ hrest]
          rfl
        · rw [if_neg hplus]
          have ht : (a :: rest).takeWhile csIsDigit = [] := by
            simp only [List.takeWhile_cons, ha]
            simp
          rw [ht]
          rfl
  have hcond : (decide (h.length > 15 + 2) && strncaseEq h "Content-Length:") = true := by
    rw [hcl, Bool.and_true, decide_eq_true_eq]
    omega
  rw [processHeaderLine, if_neg (by simp [hims]), processHeaderRest,
    if_neg (show ¬((decide (h.length > 13 + 2) && strncaseEq h "Content-Type:") = true) by
      simp [hct]),
    if_pos hcond, hatoi]
  exact ⟨rfl, rfl, rfl⟩

/-- C5 witness for the amended theorem, at `"Content-Length: xyz"`. -/
theorem C5_malformed_content_length_sets_zero_witness :
    ("Content-Length: xyz".length > 17 ∧
      strncaseEq "Content-Length: xyz" "Content-Length:" = true ∧
      (∀ c ∈ "Content-Length: xyz".data.drop 16, csIsDigit c = false)) ∧
    ((processHeaderLine init_request "Content-Length: xyz").1.content_length = 0 ∧
      (processHeaderLine init_request "Content-Length: xyz").2 = false ∧
      (processHeaderLine init_request "Content-Length: xyz").1.if_modified_since_date
        = init_request.if_modified_since_date) :=
  ⟨⟨by decide, by decide, by decide⟩,
    C5_malformed_content_length_sets_zero init_request "Content-Length: xyz"
      (by decide) (by decide) (by decide)⟩

/-- C9: if the client's byte stream does not contain the `CRLF CRLF`
header terminator within its first 4095 bytes, then — for every possible
sequence of kernel read sizes — the receive loop never stores more than
4095 bytes into the fixed 4096-byte request buffer, and `httpd` answers
with the early `400 Bad Request` page of lines 179–181, before any
`Request` is parsed and before any path resolution. -/
theorem C9_unterminated_header_bounded_400 (stream : List Char) (sched : List Nat)
    (h : hasHeaderTerminator (stream.take 4095) = false) :
    (recvLoop stream 4095 [] sched).length ≤ 4095 ∧
    httpdFront stream sched = .earlyReject RESPONSE_STATUS_BAD_REQUEST := by
  obtain ⟨hlen, hpre⟩ := recvLoop_invariant sched stream [] 4095 (by simp)
  rw [List.nil_append] at hpre
  refine ⟨hlen, ?_⟩
  have hpre2 : recvLoop stream 4095 [] sched <+: stream.take 4095 := by
    rw [List.prefix_take_iff]
    exact ⟨hpre, hlen⟩
  have hterm : hasHeaderTerminator (recvLoop stream 4095 [] sched) = false := by
    cases hb : hasHeaderTerminator (recvLoop stream 4095 [] sched)
    · rfl
    · exfalso
      have hinf : crlfCrlf <:+: recvLoop stream 4095 [] sched :=
        (strstrContains_iff_sub crlfCrlf _).mp hb
      have hinf2 : crlfCrlf <:+: stream.take 4095 := hinf.trans hpre2.isInfix
      have htrue := (strstrContains_iff_sub crlfCrlf (stream.take 4095)).mpr hinf2
      rw [show hasHeaderTerminator (stream.take 4095)
          = strstrContains (stream.take 4095) crlfCrlf from rfl] at h
      exact absurd (htrue.symm.trans h) (by simp)
  rw [httpdFront.eq_def]
  simp only [hterm]
  rfl

/-- C9 witness: a request line with no blank-line terminator. -/
theorem C9_unterminated_header_bounded_400_witness :
    hasHeaderTerminator (("GET / HTTP/1.0\r\n".data).take 4095) = false ∧
    ((recvLoop "GET / HTTP/1.0\r\n".data 4095 [] [4095]).length ≤ 4095 ∧
      httpdFront "GET / HTTP/1.0\r\n".data [4095]
        = .earlyReject RESPONSE_STATUS_BAD_REQUEST) :=
  ⟨by decide, C9_unterminated_header_bounded_400 "GET / HTTP/1.0\r\n".data [4095] (by decide)⟩

/-! ### Dispatch evaluation helpers -/

theorem httpdDispatch_three_tokens_bad_version (ctx : HttpdCtx) (m p v : String)
    (req0 : Request) (hv : versionTokOk v = false) :
    httpdDispatch ctx false [m, p, v] req0
      = { code := RESPONSE_STATUS_VERSION_NOT_SUPPORTED,
          req := { req0 with version_major := 1, version_minor := 0 },
          cgi := false, simple := false } := by
  simp [httpdDispatch, hv]

theorem httpdDispatch_get_ok (ctx : HttpdCtx) (m p v rp : String) (req0 : Request)
    (hm : strcasecmpEq m "GET" = true) (hv : versionTokOk v = true)
    (hres : ctx.resolve REQUEST_METHOD_GET p
      = { status := RESPONSE_STATUS_OK, cgi := false, realpath := rp }) :
    httpdDispatch ctx false [m, p, v] req0
      = { code := RESPONSE_STATUS_OK,
          req := { req0 with
                   version_major := 1
                   version_minor := 0
                   method := REQUEST_METHOD_GET
                   path := rp },
          cgi := false, simple := false } := by
  simp [httpdDispatch, hv, hm, hres]

theorem httpdDispatch_head_ok (ctx : HttpdCtx) (m p v rp : String) (req0 : Request)
    (hm : strcasecmpEq m "HEAD" = true) (hv : versionTokOk v = true)
    (hres : ctx.resolve REQUEST_METHOD_HEAD p
      = { status := RESPONSE_STATUS_OK, cgi := false, realpath := rp }) :
    httpdDispatch ctx false [m, p, v] req0
      = { code := RESPONSE_STATUS_OK,
          req := { req0 with
                   version_major := 1
                   version_minor := 0
                   method := REQUEST_METHOD_HEAD
                   path := rp },
          cgi := false, simple := false } := by
  have hmg : strcasecmpEq m "GET" = false :=
    strcasecmpEq_false_of m "HEAD" "GET" hm (by decide)
  simp [httpdDispatch, hv, hm, hmg, hres]

theorem httpdDispatch_post_noncgi (ctx : HttpdCtx) (m p v rp : String) (req0 : Request)
    (hm : strcasecmpEq m "POST" = true) (hv : versionTokOk v = true)
    (hres : ctx.resolve REQUEST_METHOD_POST p
      = { status := RESPONSE_STATUS_OK, cgi := false, realpath := rp }) :
    (httpdDispatch ctx false [m, p, v] req0).code = RESPONSE_STATUS_BAD_REQUEST ∧
    (httpdDispatch ctx false [m, p, v] req0).req.method = REQUEST_METHOD_POST ∧
    (httpdDispatch ctx false [m, p, v] req0).cgi = false ∧
    (httpdDispatch ctx false [m, p, v] req0).simple = false := by
  have hmg : strcasecmpEq m "GET" = false :=
    strcasecmpEq_false_of m "POST" "GET" hm (by decide)
  have hmh : strcasecmpEq m "HEAD" = false :=
    strcasecmpEq_false_of m "POST" "HEAD" hm (by decide)
  by_cases hc : ctx.cgiConfigured
  · simp [httpdDispatch, hv, hm, hmg, hmh, hres, hc]
  · simp [httpdDispatch, hv, hm, hmg, hmh, hc]

/-- A resolution oracle for the C3 counterexample: every lookup misses. -/
def c3CounterexampleCtx : HttpdCtx :=
  { cgiConfigured := true,
    resolve := fun _ _ =>
      { status := RESPONSE_STATUS_NOT_FOUND, cgi := false, realpath := "" } }

/-- C3 counterexample: the claim demands 505 whenever the version token
of a 3-token request line is not case-insensitively *equal* to
`"HTTP/1.0"`.  The code compares only the first 8 characters
(`strncasecmp(token, "HTTP/1.0", 8)`), so the token `"HTTP/1.00"` — not
equal to `"HTTP/1.0"` — passes the version check, and the request
proceeds to method dispatch: with method token `"FOO"` the response is
`501 Not Implemented`, not 505. -/
theorem C3_version_suffix_not_505 :
    strcasecmpEq "HTTP/1.00" "HTTP/1.0" = false ∧
    (httpdDispatch c3CounterexampleCtx false ["FOO", "/x", "HTTP/1.00"] init_request).code
      = RESPONSE_STATUS_NOT_IMPLEMENTED ∧
    (httpdDispatch c3CounterexampleCtx false ["FOO", "/x", "HTTP/1.00"] init_request).code
      ≠ RESPONSE_STATUS_VERSION_NOT_SUPPORTED := by
  refine ⟨by decide, by decide, by decide⟩

/-! ### Wire evaluation helpers -/

theorem coderespWire_full (r : Response) (now : Int) (p : String)
    (hp : reasonPhrase r.code = some p) :
    coderespWire r true now
      = { statusLine := some (r.code, p), headers := coderespHeaders r now, body := [] } := by
  simp only [coderespWire, Bool.not_true, Bool.false_eq_true, if_false, hp]

theorem send_generic_page_wire_statusLine (r : Response) (cm : Option String) (now : Int)
    (p : String) (hneq : (r.code == RESPONSE_STATUS_CONNECTION_TIMED_OUT) = false)
    (hp : reasonPhrase r.code = some p) :
    (send_generic_page_wire r false cm now).statusLine = some (r.code, p) := by
  simp only [send_generic_page_wire, hneq, Bool.false_eq_true, if_false, Bool.not_false]
  rw [coderespWire_full _ _ _ (by simpa using hp)]

theorem coderespHeaders_mem_content_length (r : Response) (now : Int)
    (h : r.content_length ≥ 0) :
    ("Content-Length: " ++ toString r.content_length) ∈ coderespHeaders r now := by
  simp [coderespHeaders, h]

theorem coderespHeaders_mem_content_type (r : Response) (now : Int)
    (h : r.content_type ≠ "") :
    ("Content-Type: " ++ r.content_type) ∈ coderespHeaders r now := by
  simp [coderespHeaders, h]

theorem coderespHeaders_mem_last_modified (r : Response) (now : Int)
    (h : r.last_modified ≠ -1) :
    ("Last-Modified: " ++ time_to_http_date r.last_modified) ∈ coderespHeaders r now := by
  simp [coderespHeaders, h]

set_option maxHeartbeats 1000000 in
/-- C3 as amended: for every request line splitting into exactly 3
tokens whose version token does not case-insensitively *begin with*
`"HTTP/1.0"` (only the first 8 characters are compared, per
`strncasecmp(tok, "HTTP/1.0", 8)`), the response status is
`VersionNotSupported (505)`, regardless of method or path (headers
assumed parsed without failure). -/
theorem C3_bad_version_means_505 (ctx : HttpdCtx) (m p v : String) (req0 : Request)
    (stat : String → Option StatInfo) (fileBytes : List Char) (dirNames : List String)
    (cgiOut : List Char) (now : Int)
    (hv : versionTokOk v = false) :
    (httpdDispatch ctx false [m, p, v] req0).code = RESPONSE_STATUS_VERSION_NOT_SUPPORTED ∧
    (httpdWire ctx false [m, p, v] req0 stat fileBytes dirNames cgiOut now).1.statusLine
      = some (RESPONSE_STATUS_VERSION_NOT_SUPPORTED, "Version Not Supported") := by
  have hd := httpdDispatch_three_tokens_bad_version ctx m p v req0 hv
  refine ⟨by rw [hd], ?_⟩
  have h1 : (RESPONSE_STATUS_VERSION_NOT_SUPPORTED == RESPONSE_STATUS_OK) = false := by decide
  simp only [httpdWire, hd, h1, Bool.false_and, Bool.false_eq_true, if_false]
  have hsl : ∀ cm : Option String,
      (send_generic_page_wire (init_response RESPONSE_STATUS_VERSION_NOT_SUPPORTED)
        false cm now).statusLine
        = some (RESPONSE_STATUS_VERSION_NOT_SUPPORTED, "Version Not Supported") :=
    fun cm => send_generic_page_wire_statusLine
      (init_response RESPONSE_STATUS_VERSION_NOT_SUPPORTED) cm now "Version Not Supported"
      (by decide) (by decide)
  cases hb1 : (req0.method == REQUEST_METHOD_POST && !ctx.cgiConfigured) with
  | true => simpa using hsl _
  | false =>
    cases hb2 : (req0.method == REQUEST_METHOD_POST && !false) with
    | true => simpa using hsl _
    | false => simpa using hsl _

/-- C3 witness: `GET /x HTTP/2.0` yields 505. -/
theorem C3_bad_version_means_505_witness :
    versionTokOk "HTTP/2.0" = false ∧
    ((httpdDispatch c3CounterexampleCtx false ["GET", "/x", "HTTP/2.0"] init_request).code
        = RESPONSE_STATUS_VERSION_NOT_SUPPORTED ∧
      (httpdWire c3CounterexampleCtx false ["GET", "/x", "HTTP/2.0"] init_request
          (fun _ => none) [] [] [] 0).1.statusLine
        = some (RESPONSE_STATUS_VERSION_NOT_SUPPORTED, "Version Not Supported")) :=
  ⟨by decide, C3_bad_version_means_505 c3CounterexampleCtx "GET" "/x" "HTTP/2.0" init_request
    (fun _ => none) [] [] [] 0 (by decide)⟩

set_option maxHeartbeats 1000000 in
/-- C2: for every POST request whose path resolution returns `200 OK`
with the `cgi_request` flag clear (a non-CGI target), the response is
`400 Bad Request` — both when a CGI root is configured (lines 295–296)
and when it is not (lines 290–291, where the 400 is chosen without even
resolving), i.e. regardless of the CGI configuration state. -/
theorem C2_post_to_noncgi_is_400 (ctx : HttpdCtx) (m p v rp : String) (req0 : Request)
    (stat : String → Option StatInfo) (fileBytes : List Char) (dirNames : List String)
    (cgiOut : List Char) (now : Int)
    (hm : strcasecmpEq m "POST" = true) (hv : versionTokOk v = true)
    (hres : ctx.resolve REQUEST_METHOD_POST p
      = { status := RESPONSE_STATUS_OK, cgi := false, realpath := rp }) :
    (httpdDispatch ctx false [m, p, v] req0).code = RESPONSE_STATUS_BAD_REQUEST ∧
    (httpdWire ctx false [m, p, v] req0 stat fileBytes dirNames cgiOut now).1.statusLine
      = some (RESPONSE_STATUS_BAD_REQUEST, "Bad Request") := by
  obtain ⟨hcode, hmeth, hcgi, hsimple⟩ := httpdDispatch_post_noncgi ctx m p v rp req0 hm hv hres
  refine ⟨hcode, ?_⟩
  have h1 : (RESPONSE_STATUS_BAD_REQUEST == RESPONSE_STATUS_OK) = false := by decide
  have h2 : (REQUEST_METHOD_POST == REQUEST_METHOD_GET) = false := by decide
  have h3 : (REQUEST_METHOD_POST == REQUEST_METHOD_POST) = true := by decide
  simp only [httpdWire, hcode, hmeth, hcgi, hsimple, h1, h2, h3, Bool.false_and,
    Bool.true_and, Bool.and_false, Bool.false_eq_true, if_false, Bool.not_false]
  have hsl : ∀ cm : Option String,
      (send_generic_page_wire (init_response RESPONSE_STATUS_BAD_REQUEST)
        false cm now).statusLine
        = some (RESPONSE_STATUS_BAD_REQUEST, "Bad Request") :=
    fun cm => send_generic_page_wire_statusLine (init_response RESPONSE_STATUS_BAD_REQUEST)
      cm now "Bad Request" (by decide) (by decide)
  cases hb : ctx.cgiConfigured with
  | true => simpa using hsl _
  | false => simpa using hsl _

/-- C2 witness: `POST /x HTTP/1.0` with a CGI root configured and a
resolution that yields a non-CGI 200 target. -/
def c2WitnessCtx : HttpdCtx :=
  { cgiConfigured := true,
    resolve := fun _ _ =>
      { status := RESPONSE_STATUS_OK, cgi := false, realpath := "/srv/www/x" } }

theorem C2_post_to_noncgi_is_400_witness :
    (strcasecmpEq "POST" "POST" = true ∧ versionTokOk "HTTP/1.0" = true ∧
      c2WitnessCtx.resolve REQUEST_METHOD_POST "/x"
        = { status := RESPONSE_STATUS_OK, cgi := false, realpath := "/srv/www/x" }) ∧
    ((httpdDispatch c2WitnessCtx false ["POST", "/x", "HTTP/1.0"] init_request).code
        = RESPONSE_STATUS_BAD_REQUEST ∧
      (httpdWire c2WitnessCtx false ["POST", "/x", "HTTP/1.0"] init_request
          (fun _ => none) [] [] [] 0).1.statusLine
        = some (RESPONSE_STATUS_BAD_REQUEST, "Bad Request")) :=
  ⟨⟨by decide, by decide, rfl⟩,
    C2_post_to_noncgi_is_400 c2WitnessCtx "POST" "/x" "HTTP/1.0" "/srv/www/x" init_request
      (fun _ => none) [] [] [] 0 (by decide) (by decide) rfl⟩

set_option maxHeartbeats 1000000 in
/-- C4: a GET whose path resolves `200 OK` to a non-CGI regular file,
with `If-Modified-Since` set (`≠ -1`) and at or after the file's
modification time, is answered with status line `200 OK`, a
`Content-Length: 0` header, and no entity-body bytes (`fileserver`
lines 639–646; the mtime bounds put the timestamp in the UTC calendar
range where `local_to_gmtime` is the identity). -/
theorem C4_conditional_get_200_zero_length_no_body (ctx : HttpdCtx) (m p v rp : String)
    (req0 : Request) (stat : String → Option StatInfo) (fileBytes : List Char)
    (dirNames : List String) (cgiOut : List Char) (now : Int) (sz mt : Int) (mime : String)
    (hm : strcasecmpEq m "GET" = true) (hv : versionTokOk v = true)
    (hres : ctx.resolve REQUEST_METHOD_GET p
      = { status := RESPONSE_STATUS_OK, cgi := false, realpath := rp })
    (hstat : stat rp = some { size := sz, mtime := mt, isDir := false, mime := mime })
    (hims : req0.if_modified_since_date ≠ -1)
    (hge : req0.if_modified_since_date ≥ mt)
    (hmt0 : 0 ≤ mt) (hmt1 : mt < 253402300800) :
    (httpdWire ctx false [m, p, v] req0 stat fileBytes dirNames cgiOut now).1.statusLine
      = some (RESPONSE_STATUS_OK, "OK") ∧
    "Content-Length: 0"
      ∈ (httpdWire ctx false [m, p, v] req0 stat fileBytes dirNames cgiOut now).1.headers ∧
    (httpdWire ctx false [m, p, v] req0 stat fileBytes dirNames cgiOut now).1.body = [] := by
  have hd := httpdDispatch_get_ok ctx m p v rp req0 hm hv hres
  have h1 : (RESPONSE_STATUS_OK == RESPONSE_STATUS_OK) = true := by decide
  have h2 : (REQUEST_METHOD_GET == REQUEST_METHOD_GET) = true := by decide
  simp only [httpdWire, hd, h1, h2, Bool.true_and, Bool.and_true, Bool.not_false,
    Bool.and_self, if_true, hstat, set_entity_body_headers]
  have hcond : (req0.if_modified_since_date != -1
      && req0.if_modified_since_date ≥ local_to_gmtime mt) = true := by
    rw [local_to_gmtime_id mt hmt0 hmt1]
    simp only [bne_iff_ne, ne_eq, Bool.and_eq_true, decide_eq_true_eq]
    exact ⟨hims, hge⟩
  simp only [fileserverWire, hcond, if_true]
  simp only [Bool.true_or, eq_self_iff_true, if_true, init_response, Bool.not_false]
  rw [coderespWire_full { code := RESPONSE_STATUS_OK
                          last_modified := mt
                          content_type := ""
                          content_length := 0 } now "OK" rfl]
  refine ⟨rfl, ?_, rfl⟩
  have := coderespHeaders_mem_content_length
    { code := RESPONSE_STATUS_OK, last_modified := mt, content_type := "",
      content_length := 0 } now (by norm_num)
  simpa using this

/-- C4 witness context: `GET /f` resolves to a regular file. -/
def c4WitnessCtx : HttpdCtx :=
  { cgiConfigured := false,
    resolve := fun _ _ =>
      { status := RESPONSE_STATUS_OK, cgi := false, realpath := "/srv/www/f" } }

/-- C4 witness stat oracle: a regular file with mtime 0 and 42 bytes. -/
def c4WitnessStat : String → Option StatInfo :=
  fun _ => some { size := 42, mtime := 0, isDir := false, mime := "text/plain" }

/-- C4 witness request state: `If-Modified-Since` parsed to 5. -/
def c4WitnessReq : Request := { init_request with if_modified_since_date := 5 }

theorem C4_conditional_get_200_zero_length_no_body_witness :
    (strcasecmpEq "GET" "GET" = true ∧ versionTokOk "HTTP/1.0" = true ∧
      c4WitnessCtx.resolve REQUEST_METHOD_GET "/f"
        = { status := RESPONSE_STATUS_OK, cgi := false, realpath := "/srv/www/f" } ∧
      c4WitnessStat "/srv/www/f"
        = some { size := 42, mtime := 0, isDir := false, mime := "text/plain" } ∧
      c4WitnessReq.if_modified_since_date ≠ -1 ∧
      c4WitnessReq.if_modified_since_date ≥ 0 ∧
      (0 : Int) ≤ 0 ∧ (0 : Int) < 253402300800) ∧
    ((httpdWire c4WitnessCtx false ["GET", "/f", "HTTP/1.0"] c4WitnessReq c4WitnessStat
        [] [] [] 0).1.statusLine = some (RESPONSE_STATUS_OK, "OK") ∧
      "Content-Length: 0" ∈ (httpdWire c4WitnessCtx false ["GET", "/f", "HTTP/1.0"]
        c4WitnessReq c4WitnessStat [] [] [] 0).1.headers ∧
      (httpdWire c4WitnessCtx false ["GET", "/f", "HTTP/1.0"] c4WitnessReq c4WitnessStat
        [] [] [] 0).1.body = []) :=
  ⟨⟨by decide, by decide, rfl, rfl, by decide, by decide, by decide, by decide⟩,
    C4_conditional_get_200_zero_length_no_body c4WitnessCtx "GET" "/f" "HTTP/1.0"
      "/srv/www/f" c4WitnessReq c4WitnessStat [] [] [] 0 42 0 "text/plain"
      (by decide) (by decide) rfl rfl (by decide) (by decide) (by decide) (by decide)⟩

set_option maxHeartbeats 1000000 in
/-- C10: a HEAD request whose path resolves `200 OK` to a non-CGI
target is answered with the status line and headers only: the headers
carry `Content-Length`, `Content-Type` and `Last-Modified` taken from
the target's `stat` (via `set_entity_body_headers`), and no entity-body
byte is ever sent (`serve_file` is GET-only, so after `coderesp`
nothing further is written). -/
theorem C10_head_headers_no_body (ctx : HttpdCtx) (m p v rp : String)
    (req0 : Request) (stat : String → Option StatInfo) (fileBytes : List Char)
    (dirNames : List String) (cgiOut : List Char) (now : Int) (sz mt : Int)
    (mime : String) (dirFlag : Bool)
    (hm : strcasecmpEq m "HEAD" = true) (hv : versionTokOk v = true)
    (hres : ctx.resolve REQUEST_METHOD_HEAD p
      = { status := RESPONSE_STATUS_OK, cgi := false, realpath := rp })
    (hstat : stat rp = some { size := sz, mtime := mt, isDir := dirFlag, mime := mime })
    (hsz : sz ≥ 0) (hmt : mt ≠ -1) (hmime : mime ≠ "") :
    (httpdWire ctx false [m, p, v] req0 stat fileBytes dirNames cgiOut now).1.statusLine
      = some (RESPONSE_STATUS_OK, "OK") ∧
    ("Content-Length: " ++ toString sz)
      ∈ (httpdWire ctx false [m, p, v] req0 stat fileBytes dirNames cgiOut now).1.headers ∧
    ("Content-Type: " ++ mime)
      ∈ (httpdWire ctx false [m, p, v] req0 stat fileBytes dirNames cgiOut now).1.headers ∧
    ("Last-Modified: " ++ time_to_http_date mt)
      ∈ (httpdWire ctx false [m, p, v] req0 stat fileBytes dirNames cgiOut now).1.headers ∧
    (httpdWire ctx false [m, p, v] req0 stat fileBytes dirNames cgiOut now).1.body = [] := by
  have hd := httpdDispatch_head_ok ctx m p v rp req0 hm hv hres
  have h1 : (RESPONSE_STATUS_OK == RESPONSE_STATUS_OK) = true := by decide
  have h2 : (REQUEST_METHOD_HEAD == REQUEST_METHOD_GET) = false := by decide
  have h3 : (REQUEST_METHOD_HEAD == REQUEST_METHOD_HEAD) = true := by decide
  simp only [httpdWire, hd, h1, h2, h3, Bool.true_and, Bool.false_and, Bool.and_true,
    Bool.true_or, Bool.false_or, Bool.not_false, Bool.and_self, if_true,
    Bool.false_eq_true, if_false, hstat, set_entity_body_headers, init_response]
  rw [coderespWire_full { code := RESPONSE_STATUS_OK
                          last_modified := mt
                          content_type := mime
                          content_length := sz } now "OK" rfl]
  refine ⟨rfl, ?_, ?_, ?_, rfl⟩
  · have := coderespHeaders_mem_content_length
      { code := RESPONSE_STATUS_OK, last_modified := mt, content_type := mime,
        content_length := sz } now (by simpa using hsz)
    simpa using this
  · have := coderespHeaders_mem_content_type
      { code := RESPONSE_STATUS_OK, last_modified := mt, content_type := mime,
        content_length := sz } now (by simpa using hmime)
    simpa using this
  · have := coderespHeaders_mem_last_modified
      { code := RESPONSE_STATUS_OK, last_modified := mt, content_type := mime,
        content_length := sz } now (by simpa using hmt)
    simpa using this

/-- C10 witness context: `HEAD /f` resolves to a non-CGI file. -/
def c10WitnessCtx : HttpdCtx :=
  { cgiConfigured := false,
    resolve := fun _ _ =>
      { status := RESPONSE_STATUS_OK, cgi := false, realpath := "/srv/www/f" } }

/-- C10 witness stat oracle. -/
def c10WitnessStat : String → Option StatInfo :=
  fun _ => some { size := 42, mtime := 86400, isDir := false, mime := "text/plain" }

theorem C10_head_headers_no_body_witness :
    (strcasecmpEq "HEAD" "HEAD" = true ∧ versionTokOk "HTTP/1.0" = true ∧
      c10WitnessCtx.resolve REQUEST_METHOD_HEAD "/f"
        = { status := RESPONSE_STATUS_OK, cgi := false, realpath := "/srv/www/f" } ∧
      c10WitnessStat "/srv/www/f"
        = some { size := 42, mtime := 86400, isDir := false, mime := "text/plain" } ∧
      (42 : Int) ≥ 0 ∧ (86400 : Int) ≠ -1 ∧ "text/plain" ≠ "") ∧
    ((httpdWire c10WitnessCtx false ["HEAD", "/f", "HTTP/1.0"] init_request c10WitnessStat
        [] [] [] 0).1.statusLine = some (RESPONSE_STATUS_OK, "OK") ∧
      ("Content-Length: " ++ toString (42 : Int))
        ∈ (httpdWire c10WitnessCtx false ["HEAD", "/f", "HTTP/1.0"] init_request
            c10WitnessStat [] [] [] 0).1.headers ∧
      ("Content-Type: " ++ "text/plain")
        ∈ (httpdWire c10WitnessCtx false ["HEAD", "/f", "HTTP/1.0"] init_request
            c10WitnessStat [] [] [] 0).1.headers ∧
      ("Last-Modified: " ++ time_to_http_date 86400)
        ∈ (httpdWire c10WitnessCtx false ["HEAD", "/f", "HTTP/1.0"] init_request
            c10WitnessStat [] [] [] 0).1.headers ∧
      (httpdWire c10WitnessCtx false ["HEAD", "/f", "HTTP/1.0"] init_request c10WitnessStat
        [] [] [] 0).1.body = []) :=
  ⟨⟨by decide, by decide, rfl, rfl, by decide, by decide, by decide⟩,
    C10_head_headers_no_body c10WitnessCtx "HEAD" "/f" "HTTP/1.0" "/srv/www/f" init_request
      c10WitnessStat [] [] [] 0 42 86400 "text/plain" false
      (by decide) (by decide) rfl rfl (by decide) (by decide) (by decide)⟩

/-- C7: the directory-listing body lists, one CRLF-terminated line per
entry (see `dirListingHtml`), exactly the non-dotfile entries of the
directory in lexicographic (`alphasort`, byte-order) order: the emitted
line list is pairwise ordered, and a name appears in it exactly when it
is an entry of the directory that does not begin with `'.'` (directory
entry names are non-empty). -/
theorem C7_directory_listing_sorted_non_dot (names : List String)
    (hne : ∀ n ∈ names, n ≠ "") :
    (dirListingLines names).Pairwise (fun a b => a.data ≤ b.data) ∧
    (∀ n, n ∈ dirListingLines names ↔ (n ∈ names ∧ n.data.head? ≠ some '.')) := by
  constructor
  · have hs : (names.mergeSort (fun a b => decide (a.data ≤ b.data))).Pairwise
        (fun a b => decide (a.data ≤ b.data) = true) :=
      List.sorted_mergeSort
        (fun a b c hab hbc => by
          simp only [decide_eq_true_eq] at hab hbc ⊢
          exact le_trans hab hbc)
        (fun a b => by
          simp only [Bool.or_eq_true, decide_eq_true_eq]
          exact le_total a.data b.data)
        names
    have hsub : List.Sublist (dirListingLines names) (alphasortModel names) :=
      List.filter_sublist _
    have hp : (dirListingLines names).Pairwise (fun a b => decide (a.data ≤ b.data) = true) :=
      List.Pairwise.sublist hsub hs
    exact hp.imp (fun h => by simpa using h)
  · intro n
    rw [show dirListingLines names
        = (alphasortModel names).filter
            (fun n => 1 ≤ n.length && n.data.headD ' ' != '.') from rfl]
    rw [List.mem_filter]
    rw [show alphasortModel names
        = names.mergeSort (fun a b => decide (a.data ≤ b.data)) from rfl]
    rw [List.mem_mergeSort]
    constructor
    · rintro ⟨hmem, hpred⟩
      refine ⟨hmem, ?_⟩
      obtain ⟨ld⟩ := n
      cases ld with
      | nil => exact absurd rfl (hne _ hmem)
      | cons c cs =>
        simp only [Bool.and_eq_true, bne_iff_ne, ne_eq] at hpred
        simp only [List.head?, ne_eq, Option.some.injEq]
        have := hpred.2
        simp only [String.data] at this
        simpa using this
    · rintro ⟨hmem, hh⟩
      refine ⟨hmem, ?_⟩
      obtain ⟨ld⟩ := n
      cases ld with
      | nil => exact absurd rfl (hne _ hmem)
      | cons c cs =>
        simp only [List.head?, ne_eq, Option.some.injEq] at hh
        simp only [Bool.and_eq_true, bne_iff_ne, ne_eq, decide_eq_true_eq]
        constructor
        · simp [String.length]
        · simpa using hh

/-- C7 witness: the directory `["b.txt", ".hidden", "a.txt"]`. -/
theorem C7_directory_listing_sorted_non_dot_witness :
    (∀ n ∈ ["b.txt", ".hidden", "a.txt"], n ≠ "") ∧
    ((dirListingLines ["b.txt", ".hidden", "a.txt"]).Pairwise
        (fun a b => a.data ≤ b.data) ∧
      (∀ n, n ∈ dirListingLines ["b.txt", ".hidden", "a.txt"]
        ↔ (n ∈ ["b.txt", ".hidden", "a.txt"] ∧ n.data.head? ≠ some '.'))) :=
  ⟨by decide, C7_directory_listing_sorted_non_dot ["b.txt", ".hidden", "a.txt"] (by decide)⟩
